import Mathlib

/-!
# Verification of the municipal-statistics dashboard core

Shallow embedding of `src/exemplo_dashboard.py`: the tabular loader with its
UF (state) prefix resolution, the sidebar filter engine, the cluster
label/color mappings of tab 1 (choropleth map) and tab 4 (comparison view),
the top-10 bar-chart selection of tab 2, the geo-boundary simplifier, and
the overall session data flow.

Dataframes are modelled as lists of records; pandas boolean-mask indexing
(`df[mask]`), which returns a copy, is modelled as `List.filter` producing a
new list; `Series.map(dict)` is modelled as an association-list lookup
returning `Option` (`none` models NaN for a missing key); numeric columns are
modelled as `Int` (only order comparisons on them occur in the code under
verification).
-/

namespace Dashboard

/-- Python-dict lookup (`dict.get` / the semantics of `Series.map(dict)` per
element): first matching key wins, `none` when the key is absent. -/
def dictGet {α β : Type} [DecidableEq α] : List (α × β) → α → Option β
  | [], _ => none
  | (k, v) :: rest, a => if a = k then some v else dictGet rest a

/-- One row of `DATASET_CLUSTERIZADO.csv` as read, before `load_data`'s UF
treatment. `cod` is text (the code immediately coerces it with
`astype(str)`; in this model it is already text). `Cluster` is `Option`
because the comparison tab guards against NaN cluster values. -/
structure RawRow where
  cod : String
  mun : String
  populacao : Int
  taxa_mortalidade_infantil : Int
  pct_prenatal : Int
  pib_per_capita : Int
  pct_icsap : Int
  custo_medio : Int
  Cluster : Option Int
deriving DecidableEq, Repr

/-- A row after `load_data`: the raw columns plus the derived `UF_Cod`
(first two characters of `cod`) and `UF` (state abbreviation, `none` when
the prefix is not in `codigos_uf`). -/
structure Row where
  cod : String
  mun : String
  populacao : Int
  taxa_mortalidade_infantil : Int
  pct_prenatal : Int
  pib_per_capita : Int
  pct_icsap : Int
  custo_medio : Int
  Cluster : Option Int
  UF_Cod : String
  UF : Option String
deriving DecidableEq, Repr

/-- The static 27-entry UF code table of `load_data`
(`src/exemplo_dashboard.py` lines 88-93). -/
def codigos_uf : List (String × String) :=
  [("11", "RO"), ("12", "AC"), ("13", "AM"), ("14", "RR"), ("15", "PA"),
   ("16", "AP"), ("17", "TO"),
   ("21", "MA"), ("22", "PI"), ("23", "CE"), ("24", "RN"), ("25", "PB"),
   ("26", "PE"), ("27", "AL"), ("28", "SE"),
   ("29", "BA"), ("31", "MG"), ("32", "ES"), ("33", "RJ"), ("35", "SP"),
   ("41", "PR"), ("42", "SC"), ("43", "RS"),
   ("50", "MS"), ("51", "MT"), ("52", "GO"), ("53", "DF")]

/-- Per-row body of `load_data` (`src/exemplo_dashboard.py` lines 86-95):
`df['cod'] = df['cod'].astype(str)` (identity on the text model),
`df['UF_Cod'] = df['cod'].str[:2]`,
`df['UF'] = df['UF_Cod'].map(codigos_uf)`. -/
def loadRow (r : RawRow) : Row :=
  { cod := r.cod
    mun := r.mun
    populacao := r.populacao
    taxa_mortalidade_infantil := r.taxa_mortalidade_infantil
    pct_prenatal := r.pct_prenatal
    pib_per_capita := r.pib_per_capita
    pct_icsap := r.pct_icsap
    custo_medio := r.custo_medio
    Cluster := r.Cluster
    UF_Cod := r.cod.take 2
    UF := dictGet codigos_uf (r.cod.take 2) }

/-- `load_data` (`src/exemplo_dashboard.py` lines 82-96) on an
already-parsed CSV: the UF treatment applied to every row. -/
def load_data (raws : List RawRow) : List Row :=
  raws.map loadRow

/-- `df['UF'].isin(ufs_selecionadas)` for one row: pandas `isin` is `False`
on NaN (the selection list holds strings only). -/
def isinUF (uf : Option String) (sel : List String) : Bool :=
  match uf with
  | some u => sel.contains u
  | none => false

/-- `df['populacao'].between(lo, hi)` for one row: pandas `between` is
inclusive on both ends by default. -/
def betweenPop (p lo hi : Int) : Bool :=
  decide (lo ≤ p) && decide (p ≤ hi)

/-- The Filter Engine, `df_filtered` (`src/exemplo_dashboard.py` lines
114-117): rows whose `UF` is in the selected states AND whose `populacao`
lies in the slider range. -/
def df_filtered (df : List Row) (sel : List String) (lo hi : Int) : List Row :=
  df.filter (fun r => isinUF r.UF sel && betweenPop r.populacao lo hi)

/-! ## Tab 1: metric selection and the choropleth colour resolver -/

/-- The selectable map indicators of tab 1 (the `labels` dict keys,
`src/exemplo_dashboard.py` lines 155-161). -/
inductive MetricChoice where
  | Cluster
  | taxa_mortalidade_infantil
  | pib_per_capita
  | pct_prenatal
  | pct_icsap
deriving DecidableEq, Repr

/-- The tab-1 `nomes_clusters` dict (`src/exemplo_dashboard.py` lines
176-181), in source order. -/
def nomes_clusters_tab1 : List (Int × String) :=
  [(2, "Riqueza Desequilibrada"),
   (0, "Eficiente (Saúde/Segurança Alta)"),
   (3, "Vulnerável (Mortalidade Alta)"),
   (1, "Crise de Gestão (ICSAP Alto)")]

/-- The tab-1 `color_map_custom` dict (`src/exemplo_dashboard.py` lines
191-196): fixed colour per cluster display name. -/
def color_map_custom : List (String × String) :=
  [("Riqueza Desequilibrada", "#f1c40f"),
   ("Eficiente (Saúde/Segurança Alta)", "#2ecc71"),
   ("Vulnerável (Mortalidade Alta)", "#e74c3c"),
   ("Crise de Gestão (ICSAP Alto)", "#e67e22")]

/-- Tab 1's `df_filtered['Cluster_Nome'] = df_filtered['Cluster'].map(nomes_clusters)`
(`src/exemplo_dashboard.py` line 185) on one cell: `Series.map(dict)` sends
a value whose key is absent — and NaN itself — to NaN (`none`); there is no
`fillna` on this column in tab 1. -/
def clusterNomeTab1 (c : Option Int) : Option String :=
  c.bind (dictGet nomes_clusters_tab1)

/-- A tab-1 row: the filtered row plus the `Cluster_Nome` column that tab 1
adds when the Cluster metric is selected (absent — `none` — otherwise). -/
structure Tab1Row where
  base : Row
  Cluster_Nome : Option String
deriving DecidableEq, Repr

/-- The colour-encoding decision of tab 1 (`src/exemplo_dashboard.py` lines
174-200): which column colours the map, the continuous scale, and the
discrete palette. -/
structure ColorSpec where
  coluna_cor : String
  escala : Option String
  discrete_map : Option (List (String × String))
deriving DecidableEq, Repr

/-- The Metric/Color Resolver branch of tab 1 (`src/exemplo_dashboard.py`
lines 174-200): categorical palette for the Cluster metric, the "Reds"
continuous scale for every numeric metric. -/
def resolveColor (m : MetricChoice) : ColorSpec :=
  match m with
  | .Cluster =>
      { coluna_cor := "Cluster_Nome", escala := none,
        discrete_map := some color_map_custom }
  | .taxa_mortalidade_infantil =>
      { coluna_cor := "taxa_mortalidade_infantil", escala := some "Reds",
        discrete_map := none }
  | .pib_per_capita =>
      { coluna_cor := "pib_per_capita", escala := some "Reds",
        discrete_map := none }
  | .pct_prenatal =>
      { coluna_cor := "pct_prenatal", escala := some "Reds",
        discrete_map := none }
  | .pct_icsap =>
      { coluna_cor := "pct_icsap", escala := some "Reds",
        discrete_map := none }

/-- Tab 1's data preparation (`src/exemplo_dashboard.py` lines 170-200):
`df_filtered['cod'] = df_filtered['cod'].astype(str)` (identity on the text
model) and, when the Cluster metric is chosen, the `Cluster_Nome` column.
Operates on the copy produced by boolean-mask filtering, never on the
source table. -/
def tab1_prepare (dff : List Row) (m : MetricChoice) : List Tab1Row :=
  dff.map (fun r =>
    { base := { r with cod := r.cod },
      Cluster_Nome := if m = .Cluster then clusterNomeTab1 r.Cluster else none })

/-! ## Tab 2: top-10 avoidable-admission bar chart -/

/-- Descending comparison on `pct_icsap` (the order `nlargest` uses). -/
def icsapGE (a b : Row) : Prop := b.pct_icsap ≤ a.pct_icsap

/-- Ascending comparison on `pct_icsap` (the order of
`sort_values('pct_icsap', ascending=True)`). -/
def icsapLE (a b : Row) : Prop := a.pct_icsap ≤ b.pct_icsap

instance : DecidableRel icsapGE := fun a b => Int.decLe b.pct_icsap a.pct_icsap

instance : DecidableRel icsapLE := fun a b => Int.decLe a.pct_icsap b.pct_icsap

instance : IsTotal Row icsapGE := ⟨fun a b => le_total b.pct_icsap a.pct_icsap⟩

instance : IsTrans Row icsapGE := ⟨fun _ _ _ hab hbc => le_trans hbc hab⟩

instance : IsTotal Row icsapLE := ⟨fun a b => le_total a.pct_icsap b.pct_icsap⟩

instance : IsTrans Row icsapLE := ⟨fun _ _ _ hab hbc => le_trans hab hbc⟩

/-- `df.nlargest(n, 'pct_icsap')`: the first `n` rows of the table stably
sorted by `pct_icsap` descending (pandas `keep='first'` breaks ties in
favour of earlier rows, which is exactly a stable descending sort followed
by `head(n)`). -/
def nlargest_icsap (n : Nat) (df : List Row) : List Row :=
  (List.insertionSort icsapGE df).take n

/-- `top_icsap = df_filtered.nlargest(10, 'pct_icsap').sort_values('pct_icsap', ascending=True)`
(`src/exemplo_dashboard.py` line 243): the data fed to the tab-2 bar
chart. -/
def top_icsap (df : List Row) : List Row :=
  List.insertionSort icsapLE (nlargest_icsap 10 df)

/-! ## Tab 4: municipality comparison view -/

/-- The tab-4 `nomes_clusters` dict (`src/exemplo_dashboard.py` lines
284-289), in source order. -/
def nomes_clusters_tab4 : List (Int × String) :=
  [(2, "2 - Riqueza Desequilibrada"),
   (0, "0 - Eficiente (Saúde/Segurança Alta)"),
   (3, "3 - Vulnerável (Mortalidade Alta)"),
   (1, "1 - Crise de Gestão (ICSAP Alto)")]

/-- A comparison-view row: the source row plus `nome_exibicao` and the
sentinel-filled `Cluster_Texto`. -/
structure CompRow where
  base : Row
  nome_exibicao : String
  Cluster_Texto : String
deriving DecidableEq, Repr

/-- Tab 4's per-row preparation (`src/exemplo_dashboard.py` lines 278-291):
`nome_exibicao = mun` and
`Cluster_Texto = Cluster.map(nomes_clusters).fillna('Sem Classificação')` —
a cluster id outside the dict (or a NaN cluster) becomes the sentinel. -/
def mkCompRow (r : Row) : CompRow :=
  { base := r
    nome_exibicao := r.mun
    Cluster_Texto := (r.Cluster.bind (dictGet nomes_clusters_tab4)).getD "Sem Classificação" }

/-- `df_comp = df.copy()` plus the tab-4 column additions
(`src/exemplo_dashboard.py` lines 278-291): computed from the full source
table `df`, not from `df_filtered`. -/
def df_comp (df : List Row) : List CompRow :=
  df.map mkCompRow

/-- `sorted(df_comp['nome_exibicao'].unique())`
(`src/exemplo_dashboard.py` line 296): the selectable municipality names. -/
def comp_options (df : List Row) : List String :=
  List.insertionSort (fun a b : String => a ≤ b)
    ((df_comp df).map (fun r => r.nome_exibicao)).dedup

/-- `df_selected = df_comp[df_comp['nome_exibicao'].isin(cidades_selecionadas)]`
(`src/exemplo_dashboard.py` line 304). -/
def df_selected (df : List Row) (cidades : List String) : List CompRow :=
  (df_comp df).filter (fun r => cidades.contains r.nome_exibicao)

/-! ## Geo-boundary loader (`load_map_data`) -/

/-- One GeoJSON feature: the join identifier (`properties.id`) and its
geometry, which stays abstract (type parameter `G`). -/
structure Feature (G : Type) where
  feature_id : String
  geometry : G
deriving DecidableEq, Repr

/-- `load_map_data` (`src/exemplo_dashboard.py` lines 8-19) after the file
is parsed: `gdf['geometry'] = gdf.geometry.simplify(tolerance=0.005)`
replaces each feature's geometry by its simplification at the fixed
tolerance 0.005, touching nothing else. The simplification algorithm
itself lives in the geometry library, so it is a parameter here; the
dashboard calls it exactly once per feature at load time. -/
def load_map_data {G : Type} (simplify : ℚ → G → G) (gdf : List (Feature G)) :
    List (Feature G) :=
  gdf.map (fun f => { f with geometry := simplify (0.005 : ℚ) f.geometry })

/-! ## Top-level script flow -/

/-- Outcome of the guarded dataset load (`src/exemplo_dashboard.py` lines
98-102): `st.error(...)` followed by `st.stop()` on `FileNotFoundError`,
otherwise the loaded table. `st.stop()` halts the script, so nothing past
the guard runs in the error case. -/
inductive LoadOutcome where
  | halted (message : String)
  | loaded (df : List Row)
deriving DecidableEq, Repr

/-- The `try: df = load_data() / except FileNotFoundError: st.error(...); st.stop()`
guard. The CSV file's presence is modelled by `Option`: `none` is a
missing file (`FileNotFoundError`), `some raws` its parsed rows. There is
no retry and no fallback dataset. -/
def run_load (file : Option (List RawRow)) : LoadOutcome :=
  match file with
  | none => .halted "Arquivo DATASET_MESTRE_FINAL.csv não encontrado."
  | some raws => .loaded (load_data raws)

/-- The mutable state a script run starts from: the cached source table
`df`. Each rerun reads it; the renders below must leave it unchanged. -/
structure SessionState where
  df : List Row
deriving DecidableEq, Repr

/-- Everything one script run renders from the data, per tab. -/
structure Outputs where
  map_rows : List Tab1Row
  map_colors : ColorSpec
  bar_rows : List Row
  hist_rows : List Row
  table_rows : List Row
  comp_options : List String
  comp_rows : List CompRow
deriving DecidableEq, Repr

/-- One script rerun (`src/exemplo_dashboard.py` lines 104-360): filter the
source table (boolean-mask indexing returns a copy), prepare tab 1's map
data and colours, tab 2's bar and histogram data, tab 3's listing, and
tab 4's comparison view (built from `df.copy()`, not from `df_filtered`).
Returns the session state as the rerun leaves it together with the rendered
outputs: every per-render column coercion or addition happens on the
filtered copy (`tab1_prepare`) or on `df.copy()` (`df_comp`), so the state
comes back unchanged. -/
def run_session (s : SessionState) (sel : List String) (lo hi : Int)
    (m : MetricChoice) (cidades : List String) : SessionState × Outputs :=
  let dff := df_filtered s.df sel lo hi
  (s, { map_rows := tab1_prepare dff m
        map_colors := resolveColor m
        bar_rows := top_icsap dff
        hist_rows := dff
        table_rows := dff
        comp_options := comp_options s.df
        comp_rows := df_selected s.df cidades })

/-! ## Sample data (used by witnesses) -/

/-- A raw row shaped like the spec's end-to-end example for São Paulo. -/
def rawSP : RawRow :=
  { cod := "3550308", mun := "São Paulo", populacao := 12000000,
    taxa_mortalidade_infantil := 10, pct_prenatal := 80,
    pib_per_capita := 50000, pct_icsap := 12, custo_medio := 1500,
    Cluster := some 0 }

/-- A raw row shaped like the spec's end-to-end example for Rio de Janeiro. -/
def rawRJ : RawRow :=
  { cod := "3304557", mun := "Rio de Janeiro", populacao := 6700000,
    taxa_mortalidade_infantil := 11, pct_prenatal := 75,
    pib_per_capita := 45000, pct_icsap := 15, custo_medio := 1600,
    Cluster := some 1 }

/-- A raw row with the unmapped region-code prefix "99" and the
out-of-range cluster id 7. -/
def raw99 : RawRow :=
  { cod := "9912345", mun := "Municipio Fantasma", populacao := 1000,
    taxa_mortalidade_infantil := 9, pct_prenatal := 60,
    pib_per_capita := 20000, pct_icsap := 30, custo_medio := 900,
    Cluster := some 7 }

/-- Sample loaded table. -/
def exdf : List Row :=
  load_data [rawSP, rawRJ, raw99]

/-! ## Helper lemmas -/

/-- `isin` membership, spelled as a proposition. -/
theorem isinUF_iff (uf : Option String) (sel : List String) :
    isinUF uf sel = true ↔ ∃ u, uf = some u ∧ u ∈ sel := by
  cases uf <;> simp [isinUF]

/-- `between` bounds, spelled as a proposition. -/
theorem betweenPop_iff (p lo hi : Int) :
    betweenPop p lo hi = true ↔ lo ≤ p ∧ p ≤ hi := by
  simp [betweenPop]

/-- A key different from all four cluster ids is absent from the tab-1
dict. -/
theorem dictGet_tab1_none (c : Int)
    (h2 : c ≠ 2) (h0 : c ≠ 0) (h3 : c ≠ 3) (h1 : c ≠ 1) :
    dictGet nomes_clusters_tab1 c = none := by
  simp [nomes_clusters_tab1, dictGet, h2, h0, h3, h1]

/-- A key different from all four cluster ids is absent from the tab-4
dict. -/
theorem dictGet_tab4_none (c : Int)
    (h2 : c ≠ 2) (h0 : c ≠ 0) (h3 : c ≠ 3) (h1 : c ≠ 1) :
    dictGet nomes_clusters_tab4 c = none := by
  simp [nomes_clusters_tab4, dictGet, h2, h0, h3, h1]

/-! ## Claim theorems -/

/-- C3: `state_abbr` (`UF`) derivation is a pure function of `cod`: the
dict has exactly 27 entries, lookup is deterministic and total on them
(every listed prefix resolves to its listed abbreviation, in particular
"35" to "SP" and "33" to "RJ"), and `load_data` derives `UF_Cod` as the
first two characters of the text `cod` and `UF` by lookup of that
two-character code, leaving `cod` itself intact. -/
theorem C3_uf_resolution_pure_total :
    codigos_uf.length = 27 ∧
    (∀ p ∈ codigos_uf, dictGet codigos_uf p.1 = some p.2) ∧
    dictGet codigos_uf "35" = some "SP" ∧
    dictGet codigos_uf "33" = some "RJ" ∧
    ∀ r : RawRow,
      (loadRow r).cod = r.cod ∧
      (loadRow r).UF_Cod = r.cod.take 2 ∧
      (loadRow r).UF = dictGet codigos_uf (r.cod.take 2) :=
  ⟨by decide, by decide, by decide, by decide, fun _ => ⟨rfl, rfl, rfl⟩⟩

/-- C3 witness: the resolution evaluated at the prefixes named by the
claim. -/
theorem C3_uf_resolution_pure_total_witness :
    dictGet codigos_uf "35" = some "SP" ∧ dictGet codigos_uf "33" = some "RJ" :=
  ⟨C3_uf_resolution_pure_total.2.2.1, C3_uf_resolution_pure_total.2.2.2.1⟩

/-- C4: the Filter Engine keeps exactly the rows whose `UF` is a selected
state and whose population lies inclusively within the range, and its
output is a sublist of the input (so no row is added or duplicated). -/
theorem C4_filter_exact_and_sublist (df : List Row) (sel : List String)
    (lo hi : Int) :
    (∀ r : Row, r ∈ df_filtered df sel lo hi ↔
        r ∈ df ∧ (∃ u, r.UF = some u ∧ u ∈ sel) ∧
          lo ≤ r.populacao ∧ r.populacao ≤ hi) ∧
    List.Sublist (df_filtered df sel lo hi) df := by
  refine ⟨fun r => ?_, List.filter_sublist df⟩
  rw [df_filtered, List.mem_filter, Bool.and_eq_true, isinUF_iff, betweenPop_iff]

/-- C4 witness: the filter evaluated on the sample table with the spec's
end-to-end selection. -/
theorem C4_filter_exact_and_sublist_witness :
    List.Sublist (df_filtered exdf ["SP"] 0 20000000) exdf :=
  (C4_filter_exact_and_sublist exdf ["SP"] 0 20000000).2

/-- C5: with an empty state selection the Filter Engine returns the empty
table, whatever the population range. -/
theorem C5_empty_selection_empty_result (df : List Row) (lo hi : Int) :
    df_filtered df [] lo hi = [] := by
  rw [df_filtered, List.filter_eq_nil_iff]
  intro r _
  cases h : r.UF <;> simp [isinUF, h]

/-- C8: a missing dataset file halts the script at the guard with the
user-visible error message and renders nothing (there is no retry and no
fallback dataset: the only non-halting outcome is the table loaded from
the actual file). -/
theorem C8_missing_file_halts :
    run_load none = .halted "Arquivo DATASET_MESTRE_FINAL.csv não encontrado." ∧
    ∀ raws : List RawRow, run_load (some raws) = .loaded (load_data raws) :=
  ⟨rfl, fun _ => rfl⟩

/-- C9: `load_map_data` keeps the features in order and in number — the
`feature_id` column is untouched — and replaces each geometry by the
simplifier applied exactly once at the fixed tolerance 0.005. -/
theorem C9_simplify_preserves_features {G : Type} (simplify : ℚ → G → G)
    (gdf : List (Feature G)) :
    (load_map_data simplify gdf).length = gdf.length ∧
    (load_map_data simplify gdf).map (fun f => f.feature_id)
        = gdf.map (fun f => f.feature_id) ∧
    (load_map_data simplify gdf).map (fun f => f.geometry)
        = gdf.map (fun f => simplify (0.005 : ℚ) f.geometry) := by
  refine ⟨by rw [load_map_data, List.length_map], ?_, ?_⟩ <;>
    induction gdf with
    | nil => rfl
    | cons f t ih => exact congrArg (List.cons _) ih

/-- C7: a script rerun leaves the session's source table untouched: the
state comes back unchanged, tab 1's coercions and added columns live on
rows of the filtered copy (stripping them returns exactly the filtered
copy), the comparison copy strips back to the source table itself, and a
later filter over the post-render state equals the same filter over the
original state. -/
theorem C7_source_table_not_mutated (s : SessionState) (sel sel2 : List String)
    (lo hi lo2 hi2 : Int) (m : MetricChoice) (cidades : List String) :
    (run_session s sel lo hi m cidades).1 = s ∧
    ((run_session s sel lo hi m cidades).2.map_rows.map (fun t => t.base))
        = df_filtered s.df sel lo hi ∧
    ((df_comp s.df).map (fun c => c.base)) = s.df ∧
    df_filtered (run_session s sel lo hi m cidades).1.df sel2 lo2 hi2
        = df_filtered s.df sel2 lo2 hi2 := by
  refine ⟨rfl, ?_, ?_, rfl⟩
  · show (tab1_prepare (df_filtered s.df sel lo hi) m).map (fun t => t.base)
        = df_filtered s.df sel lo hi
    induction df_filtered s.df sel lo hi with
    | nil => rfl
    | cons a t ih => exact congrArg (List.cons a) ih
  · induction s.df with
    | nil => rfl
    | cons a t ih => exact congrArg (List.cons a) ih

/-- C10: the comparison view is computed from the full source table only:
two reruns that differ in the sidebar selection (states, population range,
and even the chosen map metric) produce identical comparison options and
identical comparison rows, and both equal what the full table yields. -/
theorem C10_comparison_ignores_sidebar (s : SessionState)
    (sel1 sel2 : List String) (lo1 hi1 lo2 hi2 : Int) (m1 m2 : MetricChoice)
    (cidades : List String) :
    (run_session s sel1 lo1 hi1 m1 cidades).2.comp_options
        = (run_session s sel2 lo2 hi2 m2 cidades).2.comp_options ∧
    (run_session s sel1 lo1 hi1 m1 cidades).2.comp_rows
        = (run_session s sel2 lo2 hi2 m2 cidades).2.comp_rows ∧
    (run_session s sel1 lo1 hi1 m1 cidades).2.comp_options = comp_options s.df ∧
    (run_session s sel1 lo1 hi1 m1 cidades).2.comp_rows = df_selected s.df cidades :=
  ⟨rfl, rfl, rfl, rfl⟩

/-- C2: a row whose two-character `cod` prefix is not in the 27-entry
table loads with `UF = none`, is excluded from the Filter Engine's result
for every state selection and population range, and is still present in
the loaded table and in the comparison view's unfiltered copy. -/
theorem C2_unmapped_prefix_excluded (raws : List RawRow) (r : RawRow)
    (hmem : r ∈ raws) (hun : dictGet codigos_uf (r.cod.take 2) = none) :
    (loadRow r).UF = none ∧
    (∀ sel lo hi, loadRow r ∉ df_filtered (load_data raws) sel lo hi) ∧
    loadRow r ∈ load_data raws ∧
    mkCompRow (loadRow r) ∈ df_comp (load_data raws) := by
  have hUF : (loadRow r).UF = none := hun
  refine ⟨hUF, ?_, List.mem_map_of_mem loadRow hmem,
    List.mem_map_of_mem mkCompRow (List.mem_map_of_mem loadRow hmem)⟩
  intro sel lo hi hin
  have hpred := (List.mem_filter.mp hin).2
  rw [hUF] at hpred
  simp [isinUF] at hpred

/-- C2 witness: the unmapped-prefix row `raw99` (prefix "99") evaluated
concretely through the pipeline. -/
theorem C2_unmapped_prefix_excluded_witness :
    (loadRow raw99).UF = none ∧
    (∀ sel lo hi, loadRow raw99 ∉ df_filtered (load_data [rawSP, rawRJ, raw99]) sel lo hi) ∧
    loadRow raw99 ∈ load_data [rawSP, rawRJ, raw99] ∧
    mkCompRow (loadRow raw99) ∈ df_comp (load_data [rawSP, rawRJ, raw99]) :=
  C2_unmapped_prefix_excluded [rawSP, rawRJ, raw99] raw99 (by decide) (by decide)

/-- C1 counterexample: in the map view (tab 1) the cluster-name mapping
has no `fillna`, so the out-of-range `cluster_id = 7` resolves to NaN
(`none`) — no label at all — and in particular not to the "unclassified"
sentinel string used by the comparison view. The claim that every
out-of-range `cluster_id` resolves to the sentinel label is therefore
false for the tab-1 resolver the claim cites. -/
theorem C1_cluster7_tab1_has_no_sentinel :
    clusterNomeTab1 (some 7) = none ∧
    clusterNomeTab1 (some 7) ≠ some "Sem Classificação" := by
  constructor
  · rfl
  · intro h
    cases h

/-- C1 (amended): the four fixed label/colour pairs are assigned exactly
to cluster ids 0, 1, 2 and 3 (tab-1 labels and colours, and tab-4
labels); a cluster id outside {0,1,2,3} yields the sentinel
"Sem Classificação" only in the comparison view's `Cluster_Texto`
column, while in the map view it yields a null label (`none`) — in
neither view does resolution fail. -/
theorem C1_cluster_label_resolution (c : Int) (r : Row)
    (h2 : c ≠ 2) (h0 : c ≠ 0) (h3 : c ≠ 3) (h1 : c ≠ 1)
    (hr : r.Cluster = some c) :
    (clusterNomeTab1 (some 0) = some "Eficiente (Saúde/Segurança Alta)" ∧
     clusterNomeTab1 (some 1) = some "Crise de Gestão (ICSAP Alto)" ∧
     clusterNomeTab1 (some 2) = some "Riqueza Desequilibrada" ∧
     clusterNomeTab1 (some 3) = some "Vulnerável (Mortalidade Alta)") ∧
    (dictGet color_map_custom "Eficiente (Saúde/Segurança Alta)" = some "#2ecc71" ∧
     dictGet color_map_custom "Crise de Gestão (ICSAP Alto)" = some "#e67e22" ∧
     dictGet color_map_custom "Riqueza Desequilibrada" = some "#f1c40f" ∧
     dictGet color_map_custom "Vulnerável (Mortalidade Alta)" = some "#e74c3c") ∧
    (dictGet nomes_clusters_tab4 0 = some "0 - Eficiente (Saúde/Segurança Alta)" ∧
     dictGet nomes_clusters_tab4 1 = some "1 - Crise de Gestão (ICSAP Alto)" ∧
     dictGet nomes_clusters_tab4 2 = some "2 - Riqueza Desequilibrada" ∧
     dictGet nomes_clusters_tab4 3 = some "3 - Vulnerável (Mortalidade Alta)") ∧
    clusterNomeTab1 (some c) = none ∧
    (mkCompRow r).Cluster_Texto = "Sem Classificação" := by
  refine ⟨⟨rfl, rfl, rfl, rfl⟩, ⟨rfl, rfl, rfl, rfl⟩, ⟨rfl, rfl, rfl, rfl⟩, ?_, ?_⟩
  · show (some c).bind (dictGet nomes_clusters_tab1) = none
    rw [Option.some_bind, dictGet_tab1_none c h2 h0 h3 h1]
  · show (r.Cluster.bind (dictGet nomes_clusters_tab4)).getD "Sem Classificação" = _
    rw [hr, Option.some_bind, dictGet_tab4_none c h2 h0 h3 h1]
    rfl

/-- C1 witness: the amended resolution evaluated at the out-of-range
cluster id 7 carried by the sample row `raw99`. -/
theorem C1_cluster_label_resolution_witness :
    clusterNomeTab1 (some 7) = none ∧
    (mkCompRow (loadRow raw99)).Cluster_Texto = "Sem Classificação" :=
  ⟨(C1_cluster_label_resolution 7 (loadRow raw99) (by decide) (by decide)
      (by decide) (by decide) rfl).2.2.2.1,
   (C1_cluster_label_resolution 7 (loadRow raw99) (by decide) (by decide)
      (by decide) (by decide) rfl).2.2.2.2⟩

/-- C6: the data fed to the tab-2 bar chart has exactly `min 10 n` rows,
is ordered ascending by `pct_icsap`, and consists of greatest-`pct_icsap`
rows: the rest of the filtered table (`rest`) completes it to a
permutation of the input and every left-out row has `pct_icsap` no larger
than every charted row. -/
theorem C6_bar_chart_top10 (df : List Row) :
    (top_icsap df).length = min 10 df.length ∧
    (top_icsap df).Pairwise icsapLE ∧
    ∃ rest : List Row, List.Perm (top_icsap df ++ rest) df ∧
      ∀ r ∈ top_icsap df, ∀ s ∈ rest, s.pct_icsap ≤ r.pct_icsap := by
  have hperm : List.Perm (List.insertionSort icsapGE df) df :=
    List.perm_insertionSort icsapGE df
  have hsorted : List.Sorted icsapGE (List.insertionSort icsapGE df) :=
    List.sorted_insertionSort icsapGE df
  have htperm : List.Perm (top_icsap df) (nlargest_icsap 10 df) :=
    List.perm_insertionSort icsapLE (nlargest_icsap 10 df)
  refine ⟨?_, List.sorted_insertionSort icsapLE (nlargest_icsap 10 df),
    (List.insertionSort icsapGE df).drop 10, ?_, ?_⟩
  · rw [htperm.length_eq]
    show ((List.insertionSort icsapGE df).take 10).length = _
    rw [List.length_take, hperm.length_eq]
  · have h1 : List.Perm (top_icsap df ++ (List.insertionSort icsapGE df).drop 10)
        (nlargest_icsap 10 df ++ (List.insertionSort icsapGE df).drop 10) :=
      htperm.append_right _
    have h2 : nlargest_icsap 10 df ++ (List.insertionSort icsapGE df).drop 10
        = List.insertionSort icsapGE df :=
      List.take_append_drop 10 (List.insertionSort icsapGE df)
    exact (h2 ▸ h1).trans hperm
  · intro r hr s hs
    have hr10 : r ∈ (List.insertionSort icsapGE df).take 10 := htperm.mem_iff.mp hr
    have hsplit := hsorted
    rw [List.Sorted, ← List.take_append_drop 10 (List.insertionSort icsapGE df),
      List.pairwise_append] at hsplit
    exact hsplit.2.2 r hr10 s hs

/-- C6 witness: the bar-chart selection evaluated on the sample table. -/
theorem C6_bar_chart_top10_witness :
    (top_icsap exdf).length = min 10 exdf.length ∧
    (top_icsap exdf).Pairwise icsapLE :=
  ⟨(C6_bar_chart_top10 exdf).1, (C6_bar_chart_top10 exdf).2.1⟩

end Dashboard
